import Mathlib

/-!
Verification development for the DirSync-Windows repository.

The definitions below are a shallow embedding of the Python sources:
- `src/file_detector.py` (content-based format detection and rename decisions),
- `src/renamer.py` (rename with retry/backoff, unique-path collision handling),
- `src/watcher.py` (the debounced watcher / event coalescer state machine).

File contents are modelled as `List Nat` (byte values), paths as stem/suffix
pairs, the filesystem as the list of existing path strings, timers as optional
handle identifiers, and the sequence of sync-callback invocations performed by
a call as a `List SyncReason`.
-/

namespace DirSync

/-! ### Format detector (`src/file_detector.py`) -/

/-- Result of `detect_file_type`: the Python function returns the string
`'cr3'`, the string `'jpg'`, or `None`; the `Option FileType` codomain mirrors
that. -/
inductive FileType
  | cr3
  | jpg
deriving DecidableEq, Repr

/-- Python `pat in data` for byte strings, part 1: does `data` start with
`pat`? -/
def bytesStartsWith : List Nat → List Nat → Bool
  | [], _ => true
  | _ :: _, [] => false
  | a :: pa, b :: rest => a == b && bytesStartsWith pa rest

/-- Python `pat in data` for byte strings: does `pat` occur as a contiguous
run inside `data`? (`b'' in x` is `True` in Python, matching the `[]` case.) -/
def bytesContains (pat : List Nat) : List Nat → Bool
  | [] => pat.isEmpty
  | b :: rest => bytesStartsWith pat (b :: rest) || bytesContains pat rest

/-- Byte literal `b'ftypcrx'` from `file_detector.py` line 44. -/
def FTYPCRX : List Nat := [102, 116, 121, 112, 99, 114, 120]

/-- Byte literal `b'crx '` from `file_detector.py` line 44. -/
def CRX_SPACE : List Nat := [99, 114, 120, 32]

/-- Byte literal `b'Canon'` from `file_detector.py` line 48. -/
def CANON : List Nat := [67, 97, 110, 111, 110]

/-- Byte literal `b'CR3'` from `file_detector.py` line 48. -/
def CR3_MARK : List Nat := [67, 82, 51]

/-- Byte literal `b'JFIF'` from `file_detector.py` line 55. -/
def JFIF : List Nat := [74, 70, 73, 70]

/-- Byte literal `b'EXIF'` from `file_detector.py` line 55. -/
def EXIF : List Nat := [69, 88, 73, 70]

/-- Embedding of `detect_file_type` (`file_detector.py` lines 26-58), as a
function of the file's bytes. The Python reads `header = f.read(32)`, returns
`None` when `len(header) < 4`, branches on the JPEG start-of-image prefix
`FF D8 FF`, re-reads `full_header = f.read(64)` for the CR3 substring checks,
and otherwise scans the 32-byte header for `JFIF`/`EXIF`. -/
def detect_file_type (data : List Nat) : Option FileType :=
  let header := data.take 32
  if header.length < 4 then none
  else if header.take 3 = [255, 216, 255] then
    let full_header := data.take 64
    if bytesContains FTYPCRX full_header || bytesContains CRX_SPACE full_header then
      some .cr3
    else if bytesContains CANON full_header || bytesContains CR3_MARK full_header then
      some .cr3
    else
      some .jpg
  else if bytesContains JFIF header || bytesContains EXIF header then some .jpg
  else none

/-- Python's `str.lower()` as it acts on extension strings (basic latin
letters), written over the character list so it evaluates by kernel
reduction. -/
def pyLower (s : String) : String := ⟨s.data.map Char.toLower⟩

/-- Embedding of `should_rename` (`file_detector.py` lines 65-101) as a
function of the path's suffix and the detected format (the Python composes
`detect_file_type`; the decision logic after line 80 depends only on
`path.suffix` and the detection result). `current_ext = path.suffix.lower()`. -/
def should_rename_decision (suffix : String) (detected : Option FileType) :
    Bool × Option String :=
  let current_ext := pyLower suffix
  match detected with
  | none => (false, none)
  | some .cr3 =>
    if current_ext ∈ [".jpg", ".jpeg"] then (true, some ".cr3")
    else (false, none)
  | some .jpg =>
    if current_ext ∈ [".cr3"] then (true, some ".jpg")
    else if current_ext ∈ [".jpg", ".jpeg"] then
      if suffix ≠ ".jpg" then (true, some ".jpg") else (false, none)
    else (false, none)

/-- A 32-byte buffer laid out like a genuine Canon RAW 3 container: an
ISO-BMFF size box `00 00 00 18` followed by the brand `ftypcrx ` at offsets
4 through 12, then padding. -/
def realCr3Header : List Nat :=
  [0, 0, 0, 24] ++ [102, 116, 121, 112, 99, 114, 120, 32] ++ List.replicate 20 0

/-- A 64-byte buffer that starts with the JPEG start-of-image marker
`FF D8 FF`, carries no `ftypcrx `/`crx ` brand anywhere, but contains the
ASCII substring `Canon` (as a camera-make EXIF entry would). -/
def canonJpegHeader : List Nat :=
  [255, 216, 255, 224] ++ [67, 97, 110, 111, 110] ++ List.replicate 55 0

/-- C1: the claim states that any buffer carrying `ftypcrx ` at offset 4..12
is classified CR3 regardless of its leading bytes. The code only looks for
CR3 markers after seeing a `FF D8 FF` prefix, so a genuine ISO-BMFF CR3
header (which starts with a box size, not `FF D8 FF`) is classified Unknown:
`realCr3Header` carries the brand at offset 4 yet detection returns `none`. -/
theorem detect_misses_real_cr3 :
    (realCr3Header.drop 4).take 8 = [102, 116, 121, 112, 99, 114, 120, 32] ∧
      detect_file_type realCr3Header = none := by
  constructor <;> decide

/-- C2: the claim states that a buffer starting `FF D8 FF` without the
`ftypcrx ` brand is classified JPEG, independent of substrings such as
`Canon`. The code scans the first 64 bytes for `Canon`/`CR3` substrings and
classifies `canonJpegHeader` — a JPEG-prefixed buffer with no brand marker —
as CR3 instead of JPEG. -/
theorem detect_canon_substring_false_positive :
    bytesContains FTYPCRX (canonJpegHeader.take 64) = false ∧
      bytesContains CRX_SPACE (canonJpegHeader.take 64) = false ∧
      detect_file_type canonJpegHeader = some .cr3 := by
  refine ⟨?_, ?_, ?_⟩ <;> decide

/-- C8 counterexample: the claim states that fewer than 12 readable bytes
yield Unknown, but the 4-byte buffer `FF D8 FF 00` is classified JPEG. -/
theorem detect_short_buffer_not_unknown :
    ([255, 216, 255, 0] : List Nat).length < 12 ∧
      detect_file_type [255, 216, 255, 0] = some .jpg := by
  constructor <;> decide

/-- C8 (amended): the short-input guard in the code is at 4 bytes, not 12:
every input of fewer than 4 readable bytes is classified Unknown. -/
theorem detect_lt_four_bytes_unknown (data : List Nat) (h : data.length < 4) :
    detect_file_type data = none := by
  have hlen : (data.take 32).length < 4 := by
    rw [List.length_take]
    exact Nat.lt_of_le_of_lt (Nat.min_le_right _ _) h
  unfold detect_file_type
  simp only [if_pos hlen]

/-- Witness for the amended C8 theorem at the 1-byte buffer `FF`. -/
theorem detect_lt_four_bytes_unknown_witness :
    ([255] : List Nat).length < 4 ∧ detect_file_type [255] = none :=
  ⟨by decide, detect_lt_four_bytes_unknown [255] (by decide)⟩

/-- The rename decision exactly as the specification words it, for comparison
with `should_rename_decision`: CR3 content with a case-insensitive `.jpg` or
`.jpeg` extension renames to `.cr3`; JPEG content with a (case-insensitive)
`.cr3` extension renames to `.jpg`; JPEG content with a case-insensitive
`.jpg`/`.jpeg` extension that is not byte-for-byte `.jpg` renames to `.jpg`;
every other combination (including Unknown content) does not rename. -/
def decideSpec (suffix : String) (detected : Option FileType) :
    Bool × Option String :=
  if detected = some .cr3 ∧ (pyLower suffix = ".jpg" ∨ pyLower suffix = ".jpeg") then
    (true, some ".cr3")
  else if detected = some .jpg ∧ pyLower suffix = ".cr3" then
    (true, some ".jpg")
  else if detected = some .jpg ∧ (pyLower suffix = ".jpg" ∨ pyLower suffix = ".jpeg") ∧
      suffix ≠ ".jpg" then
    (true, some ".jpg")
  else
    (false, none)

/-- C7: the code's rename decision agrees with the specification's case table
on every (extension, detected format) pair. -/
theorem should_rename_decision_eq_spec (suffix : String) (detected : Option FileType) :
    should_rename_decision suffix detected = decideSpec suffix detected := by
  rcases detected with _ | f
  · simp [should_rename_decision, decideSpec]
  · rcases f with _ | _ <;>
      simp only [should_rename_decision, decideSpec, List.mem_cons,
        List.mem_singleton, List.not_mem_nil, or_false] <;>
      split_ifs <;> simp_all

/-! ### Rename engine (`src/renamer.py`) -/

/-- Outcome of one attempt of the `os.stat`/`os.replace`/metadata block in
`rename_with_metadata`: success, a `PermissionError` (file locked), or any
other exception. -/
inductive AttemptOutcome
  | ok
  | locked
  | otherError
deriving DecidableEq, Repr

/-- Embedding of the `for attempt in range(max_retries)` loop of
`rename_with_metadata` (`renamer.py` lines 46-81). `outcome k` is what the
k-th attempt would meet; `remaining` counts loop iterations still allowed,
so `remaining = 1` means `attempt = max_retries - 1`, the case in which a
locked file is reported as a final failure without sleeping. The returned
list records the `time.sleep(retry_delay * (2 ** attempt))` calls made. -/
def rename_loop (outcome : Nat → AttemptOutcome) (retry_delay : ℚ) :
    Nat → Nat → Bool × List ℚ
  | _, 0 => (false, [])
  | attempt, remaining + 1 =>
    match outcome attempt with
    | .ok => (true, [])
    | .otherError => (false, [])
    | .locked =>
      if remaining = 0 then (false, [])
      else
        let r := rename_loop outcome retry_delay (attempt + 1) remaining
        (r.1, retry_delay * 2 ^ attempt :: r.2)

/-- Embedding of `rename_with_metadata` (`renamer.py` lines 17-81), returning
whether the rename succeeded together with the backoff sleeps performed. The
source's defaults are `max_retries = 3`, `retry_delay = 0.5`. -/
def rename_with_metadata (outcome : Nat → AttemptOutcome) (max_retries : Nat)
    (retry_delay : ℚ) : Bool × List ℚ :=
  rename_loop outcome retry_delay 0 max_retries

theorem rename_loop_all_locked (outcome : Nat → AttemptOutcome) (d : ℚ) :
    ∀ remaining attempt,
      (∀ k, attempt ≤ k → k < attempt + remaining → outcome k = .locked) →
      rename_loop outcome d attempt remaining =
        (false, (List.range (remaining - 1)).map fun i => d * 2 ^ (attempt + i)) := by
  intro remaining
  induction remaining with
  | zero => intro attempt _; rfl
  | succ n ih =>
    intro attempt hlocked
    have h0 : outcome attempt = .locked := hlocked attempt le_rfl (by omega)
    rcases Nat.eq_zero_or_pos n with hn | hn
    · subst hn
      simp [rename_loop, h0]
    · have hrec := ih (attempt + 1) fun k hk1 hk2 => hlocked k (by omega) (by omega)
      have hn' : n ≠ 0 := by omega
      rw [rename_loop, h0]
      simp only [hn', if_false, hrec]
      obtain ⟨m, rfl⟩ : ∃ m, n = m + 1 := ⟨n - 1, by omega⟩
      simp only [Nat.add_sub_cancel, List.range_succ_eq_map, List.map_cons, List.map_map,
        Prod.mk.injEq, List.cons.injEq, Nat.add_zero, true_and, pow_zero]
      refine List.map_congr_left fun i _ => ?_
      have harith : attempt + 1 + i = attempt + (i + 1) := by omega
      simp [Function.comp, harith]

/-- C5 (amended): transient lock failures are retried up to `max_retries`
attempts in total, with a sleep of `retry_delay * 2 ^ attempt` after each
failed attempt that still has a retry left — so with the default 3 attempts
and base 0.5 s, exhaustion performs exactly the two sleeps 0.5 s and 1 s
(the 2 s value of the formula is never slept, because the final attempt
returns failure without sleeping); exhaustion returns failure rather than
raising, and any other error aborts immediately after a single attempt. -/
theorem rename_retry_policy (outcome : Nat → AttemptOutcome) (d : ℚ) (mr : Nat) :
    ((∀ k, k < mr → outcome k = .locked) →
      rename_with_metadata outcome mr d =
        (false, (List.range (mr - 1)).map fun k => d * 2 ^ k)) ∧
      (outcome 0 = .otherError → 0 < mr →
        rename_with_metadata outcome mr d = (false, [])) ∧
      (outcome 0 = .ok → 0 < mr →
        rename_with_metadata outcome mr d = (true, [])) := by
  refine ⟨fun hlocked => ?_, fun h0 hmr => ?_, fun h0 hmr => ?_⟩
  · have := rename_loop_all_locked outcome d mr 0 fun k _ hk => hlocked k (by omega)
    simpa [rename_with_metadata] using this
  · obtain ⟨m, rfl⟩ : ∃ m, mr = m + 1 := ⟨mr - 1, by omega⟩
    simp [rename_with_metadata, rename_loop, h0]
  · obtain ⟨m, rfl⟩ : ∃ m, mr = m + 1 := ⟨mr - 1, by omega⟩
    simp [rename_with_metadata, rename_loop, h0]

/-- Witness for the C5 theorem at the source defaults: three locked attempts
sleep 0.5 s then 1 s and fail; an immediate non-lock error fails with no
sleeps; an immediately successful attempt returns success. -/
theorem rename_retry_policy_witness :
    rename_with_metadata (fun _ => .locked) 3 (1 / 2) = (false, [1 / 2, 1]) ∧
      rename_with_metadata (fun _ => .otherError) 3 (1 / 2) = (false, []) ∧
      rename_with_metadata (fun _ => .ok) 3 (1 / 2) = (true, []) := by
  refine ⟨?_, ?_, ?_⟩
  · have := (rename_retry_policy (fun _ => .locked) (1 / 2) 3).1 fun k _ => rfl
    rw [this]
    norm_num [List.range_succ]
  · exact (rename_retry_policy (fun _ => .otherError) (1 / 2) 3).2.1 rfl (by omega)
  · exact (rename_retry_policy (fun _ => .ok) (1 / 2) 3).2.2 rfl (by omega)

/-- C5 counterexample: the claim's parenthetical "yielding delays of
approximately 0.5 s, 1 s, 2 s" is not what the code does — exhausting the
default 3 attempts sleeps only twice, 0.5 s and 1 s; no 2 s sleep occurs. -/
theorem rename_exhaustion_two_sleeps :
    rename_with_metadata (fun _ => .locked) 3 (1 / 2) = (false, [1 / 2, 1]) ∧
      (2 : ℚ) ∉ (rename_with_metadata (fun _ => .locked) 3 (1 / 2)).2 := by
  constructor
  · show rename_loop _ _ 0 3 = _
    norm_num [rename_loop]
  · intro hmem
    have : (rename_with_metadata (fun _ => .locked) 3 (1 / 2)).2 = [1 / 2, 1] := by
      show (rename_loop _ _ 0 3).2 = _
      norm_num [rename_loop]
    rw [this] at hmem
    norm_num at hmem

/-! ### Unique-path resolution and `process_file` (`src/renamer.py`) -/

/-- A file path within the watched directory, split as `pathlib` does into
stem and suffix; the rendered file name is their concatenation. -/
structure FPath where
  stem : String
  suffix : String
deriving DecidableEq, Repr

/-- The file name denoted by an `FPath`. -/
def FPath.render (p : FPath) : String := p.stem ++ p.suffix

/-- The probe name `parent / f'{stem}_{counter}{suffix}'` built by
`get_unique_path` (`renamer.py` line 106). -/
def numbered_name (p : FPath) (k : Nat) : FPath :=
  ⟨p.stem ++ "_" ++ Nat.repr k, p.suffix⟩

/-- The `while True` probe loop of `get_unique_path` (`renamer.py` lines
104-109) over a filesystem modelled as the list of existing names. The
source loop is unbounded; here `fuel` bounds it, and `fs.length + 1` probes
always suffice because the probe names are pairwise distinct while `fs` is
finite, so the fuel-exhausted branch is unreachable in the modelled calls. -/
def unique_search (fs : List String) (p : FPath) : Nat → Nat → FPath
  | counter, 0 => numbered_name p counter
  | counter, fuel + 1 =>
    if (numbered_name p counter).render ∈ fs then unique_search fs p (counter + 1) fuel
    else numbered_name p counter

/-- Embedding of `get_unique_path` (`renamer.py` lines 84-109): the target
itself when free, otherwise the first free `_1`, `_2`, … probe. -/
def get_unique_path (fs : List String) (p : FPath) : FPath :=
  if p.render ∈ fs then unique_search fs p 1 (fs.length + 1) else p

/-- Embedding of `process_file` (`renamer.py` lines 112-146): nothing when
the path does not exist or no rename is needed; otherwise the candidate is
the path with corrected suffix, diverted through `get_unique_path` when a
different existing file occupies it, and the result reported only when the
underlying rename succeeds (`rename_ok` stands for the outcome of
`rename_with_metadata`). The `(true, none)` decision shape never occurs
(`should_rename_decision` pairs `true` with an extension), so that arm is
unreachable. -/
def process_file (fs : List String) (p : FPath) (detected : Option FileType)
    (rename_ok : Bool) : Option FPath :=
  if p.render ∈ fs then
    match should_rename_decision p.suffix detected with
    | (true, some ext) =>
      let new_path : FPath := ⟨p.stem, ext⟩
      let target :=
        if new_path.render ∈ fs ∧ new_path ≠ p then get_unique_path fs new_path
        else new_path
      if rename_ok then some target else none
    | _ => none
  else none

theorem should_rename_decision_true_some (suffix : String) (detected : Option FileType)
    (o : Option String) (h : should_rename_decision suffix detected = (true, o)) :
    ∃ ext, o = some ext := by
  rcases o with _ | e
  · exfalso
    rcases detected with _ | f
    · simp [should_rename_decision] at h
    · rcases f with _ | _ <;>
        · simp only [should_rename_decision] at h
          split_ifs at h <;> simp_all
  · exact ⟨e, rfl⟩

theorem unique_search_finds_least (fs : List String) (p : FPath) :
    ∀ fuel counter,
      (∃ k, counter ≤ k ∧ k < counter + fuel ∧ (numbered_name p k).render ∉ fs) →
      ∃ k, unique_search fs p counter fuel = numbered_name p k ∧
        counter ≤ k ∧ (numbered_name p k).render ∉ fs ∧
        ∀ j, counter ≤ j → j < k → (numbered_name p j).render ∈ fs := by
  intro fuel
  induction fuel with
  | zero =>
    rintro counter ⟨k, hk1, hk2, -⟩
    omega
  | succ n ih =>
    rintro counter ⟨k, hk1, hk2, hkfree⟩
    by_cases hc : (numbered_name p counter).render ∈ fs
    · have hkc : counter + 1 ≤ k := by
        rcases Nat.eq_or_lt_of_le hk1 with rfl | h
        · exact absurd hc hkfree
        · omega
      obtain ⟨k', h1, h2, h3, h4⟩ := ih (counter + 1) ⟨k, hkc, by omega, hkfree⟩
      refine ⟨k', ?_, by omega, h3, fun j hj1 hj2 => ?_⟩
      · rw [unique_search, if_pos hc]; exact h1
      · rcases Nat.eq_or_lt_of_le hj1 with rfl | h
        · exact hc
        · exact h4 j h hj2
    · exact ⟨counter, by rw [unique_search, if_neg hc], le_rfl, hc,
        fun j hj1 hj2 => absurd hj2 (by omega)⟩

theorem exists_free_numbered_name (fs : List String) (p : FPath)
    (hnodup : ((List.range (fs.length + 1)).map
      fun i => (numbered_name p (i + 1)).render).Nodup) :
    ∃ k, 1 ≤ k ∧ k < 1 + (fs.length + 1) ∧ (numbered_name p k).render ∉ fs := by
  by_contra hall
  push_neg at hall
  have hsub : ((List.range (fs.length + 1)).map
      fun i => (numbered_name p (i + 1)).render) ⊆ fs := by
    intro x hx
    rcases List.mem_map.1 hx with ⟨i, hi, rfl⟩
    have hi' := List.mem_range.1 hi
    exact hall (i + 1) (by omega) (by omega)
  have hlen := (List.subperm_of_subset hnodup hsub).length_le
  simp only [List.length_map, List.length_range] at hlen
  omega

theorem get_unique_path_least (fs : List String) (p : FPath)
    (hocc : p.render ∈ fs)
    (hnodup : ((List.range (fs.length + 1)).map
      fun i => (numbered_name p (i + 1)).render).Nodup) :
    ∃ k, 1 ≤ k ∧ get_unique_path fs p = numbered_name p k ∧
      (numbered_name p k).render ∉ fs ∧
      ∀ j, 1 ≤ j → j < k → (numbered_name p j).render ∈ fs := by
  obtain ⟨k, hk1, hk2, hkfree⟩ := exists_free_numbered_name fs p hnodup
  obtain ⟨k', h1, h2, h3, h4⟩ :=
    unique_search_finds_least fs p (fs.length + 1) 1 ⟨k, hk1, by omega, hkfree⟩
  exact ⟨k', h2, by rw [get_unique_path, if_pos hocc]; exact h1, h3, h4⟩

/-- C6: when the corrected-extension candidate is occupied by a different
existing file, `process_file` resolves the rename target to the candidate's
stem with suffix `_k` for the smallest `k ≥ 1` whose name is unused —
probing `_1`, `_2`, … sequentially — and the resolved target does not exist
beforehand, so the rename overwrites no existing file. The `Nodup`
hypothesis records that the probe names `stem_1`, …, `stem_(n+1)` are
pairwise distinct strings. -/
theorem process_file_resolves_collision (fs : List String) (p : FPath)
    (detected : Option FileType) (ext : String)
    (hdec : should_rename_decision p.suffix detected = (true, some ext))
    (hp : p.render ∈ fs)
    (hocc : (FPath.mk p.stem ext).render ∈ fs)
    (hne : FPath.mk p.stem ext ≠ p)
    (hnodup : ((List.range (fs.length + 1)).map
      fun i => (numbered_name ⟨p.stem, ext⟩ (i + 1)).render).Nodup) :
    ∃ k, 1 ≤ k ∧
      process_file fs p detected true = some (numbered_name ⟨p.stem, ext⟩ k) ∧
      (numbered_name ⟨p.stem, ext⟩ k).render ∉ fs ∧
      ∀ j, 1 ≤ j → j < k → (numbered_name ⟨p.stem, ext⟩ j).render ∈ fs := by
  obtain ⟨k, hk1, heq, hfree, hleast⟩ := get_unique_path_least fs ⟨p.stem, ext⟩ hocc hnodup
  refine ⟨k, hk1, ?_, hfree, hleast⟩
  rw [process_file, if_pos hp, hdec]
  simp only [if_pos (And.intro hocc hne), if_pos trivial, heq]

/-- The filesystem of the collision test in `tests/test_renamer.py`: the
misnamed CR3 file `photo.jpg`, an occupied candidate `photo.cr3`, and an
occupied first probe `photo_1.cr3`. -/
def collisionFs : List String := ["photo.jpg", "photo.cr3", "photo_1.cr3"]

/-- Witness for the C6 theorem: processing `photo.jpg` detected as CR3 over
`collisionFs` resolves to the least free probe (here `photo_2.cr3`). -/
theorem process_file_resolves_collision_witness :
    should_rename_decision ".jpg" (some FileType.cr3) = (true, some ".cr3") ∧
      ∃ k, 1 ≤ k ∧
        process_file collisionFs ⟨"photo", ".jpg"⟩ (some FileType.cr3) true =
          some (numbered_name ⟨"photo", ".cr3"⟩ k) ∧
        (numbered_name ⟨"photo", ".cr3"⟩ k).render ∉ collisionFs ∧
        ∀ j, 1 ≤ j → j < k → (numbered_name ⟨"photo", ".cr3"⟩ j).render ∈ collisionFs :=
  ⟨by decide,
    process_file_resolves_collision collisionFs ⟨"photo", ".jpg"⟩ (some FileType.cr3)
      ".cr3" (by decide) (by decide) (by decide) (by decide) (by decide)⟩

/-! ### Event coalescer (`src/watcher.py`, class `DebouncedWatcher`) -/

/-- Tag passed to `_do_sync` (`watcher.py` lines 252, 270, 287, 321). -/
inductive SyncReason
  | debounce
  | max_latency
  | periodic
  | manual
deriving DecidableEq, Repr

/-- The mutable fields of a `DebouncedWatcher` that the claims are about,
plus the configuration the modelled methods read. Timer fields hold the
identifier of the `threading.Timer` object currently referenced (a cancelled
timer keeps its reference until reassigned); `next_timer_id` supplies fresh
identifiers for newly constructed timers. Times and intervals are rationals
standing for the Python floats. -/
structure WatcherState where
  running : Bool
  event_count : Nat
  first_event_time : Option ℚ
  last_event_time : Option ℚ
  debounce_timer : Option Nat
  max_latency_timer : Option Nat
  periodic_timer : Option Nat
  next_timer_id : Nat
  debounce_seconds : ℚ
  max_latency_seconds : ℚ
  sync_rate_seconds : ℚ
deriving DecidableEq, Repr

namespace DebouncedWatcher

/-- Embedding of `_do_sync` (`watcher.py` lines 305-311): invoke the sync
callback — recorded as an emitted `SyncReason` — with exceptions caught, so
the state is unchanged. There is no check of `running` here. -/
def do_sync (s : WatcherState) (reason : SyncReason) : WatcherState × List SyncReason :=
  (s, [reason])

/-- Embedding of `_reset_state` (`watcher.py` lines 292-303): zero the event
accounting and cancel-and-clear the debounce and max-latency timers. -/
def reset_state (s : WatcherState) : WatcherState :=
  { s with
    event_count := 0
    first_event_time := none
    last_event_time := none
    debounce_timer := none
    max_latency_timer := none }

/-- Embedding of `_trigger_debounce_sync` (`watcher.py` lines 248-252). -/
def trigger_debounce_sync (s : WatcherState) : WatcherState × List SyncReason :=
  do_sync (reset_state s) .debounce

/-- Embedding of `_trigger_max_latency_sync` (`watcher.py` lines 266-270). -/
def trigger_max_latency_sync (s : WatcherState) : WatcherState × List SyncReason :=
  do_sync (reset_state s) .max_latency

/-- Embedding of `_schedule_periodic_sync` (`watcher.py` lines 272-282):
return unchanged unless `running` and `sync_rate_seconds > 0`; otherwise
construct and start a fresh periodic timer. -/
def schedule_periodic_sync (s : WatcherState) : WatcherState :=
  if ¬s.running ∨ s.sync_rate_seconds ≤ 0 then s
  else
    { s with
      periodic_timer := some s.next_timer_id
      next_timer_id := s.next_timer_id + 1 }

/-- Embedding of `_trigger_periodic_sync` (`watcher.py` lines 284-290): call
`_do_sync('periodic')` first — unconditionally — then reschedule only if
`running` is still true. -/
def trigger_periodic_sync (s : WatcherState) : WatcherState × List SyncReason :=
  let r := do_sync s .periodic
  if r.1.running then (schedule_periodic_sync r.1, r.2) else r

/-- Embedding of `force_sync` (`watcher.py` lines 317-321): reset state, then
sync with reason `manual`; `running` is never consulted. -/
def force_sync (s : WatcherState) : WatcherState × List SyncReason :=
  do_sync (reset_state s) .manual

/-- Embedding of `stop` (`watcher.py` lines 185-207): a no-op when not
running; otherwise clear `running` and cancel the three timers. Cancelling a
`threading.Timer` prevents a pending fire but leaves the field's reference
in place, so the handle fields do not change. -/
def stop (s : WatcherState) : WatcherState :=
  if ¬s.running then s else { s with running := false }

/-- How a call to `start` returns, named after what the code does on each
path (`watcher.py` lines 137-164): an early plain `return` after a warning
log when already running, a raised `FileNotFoundError` or
`NotADirectoryError` for an invalid source path, or a normal start. -/
inductive StartOutcome
  | returnedWithoutStarting
  | raisedFileNotFoundError
  | raisedNotADirectoryError
  | started
deriving DecidableEq, Repr

/-- Embedding of `start` (`watcher.py` lines 137-183), with the two
filesystem facts it consults passed in as booleans. On the started path the
observer and processor thread are launched (outside this state model), the
running flag is set, and the periodic timer is scheduled when
`sync_rate_seconds > 0`. -/
def start (s : WatcherState) (path_exists path_is_dir : Bool) :
    StartOutcome × WatcherState :=
  if s.running then (.returnedWithoutStarting, s)
  else if ¬path_exists then (.raisedFileNotFoundError, s)
  else if ¬path_is_dir then (.raisedNotADirectoryError, s)
  else
    let s1 : WatcherState := { s with running := true }
    let s2 := if 0 < s1.sync_rate_seconds then schedule_periodic_sync s1 else s1
    (.started, s2)

end DebouncedWatcher

/-- A concrete coalescer state that has been stopped: `running` is false
while timers from the running period are still referenced. -/
def stoppedState : WatcherState :=
  { running := false
    event_count := 2
    first_event_time := some 5
    last_event_time := some 9
    debounce_timer := some 3
    max_latency_timer := some 4
    periodic_timer := some 5
    next_timer_id := 6
    debounce_seconds := 3
    max_latency_seconds := 20
    sync_rate_seconds := 7 }

/-- C3 counterexample: calling `start` while already running does not fail
with an error — it returns normally after a warning log, with the state
unchanged, contradicting the claim that it fails with `AlreadyRunning`. -/
theorem start_when_running_returns_silently :
    DebouncedWatcher.start { stoppedState with running := true } true true =
      (.returnedWithoutStarting, { stoppedState with running := true }) := by
  decide

/-- C3 (amended): `start` on a running coalescer logs a warning and returns
without signalling and without changing state; `start` on a stopped coalescer
whose watched path is missing raises `FileNotFoundError`, and on an existing
non-directory path raises `NotADirectoryError`, in both cases before any
state mutation, so the coalescer is left stopped. -/
theorem start_outcomes (s : WatcherState) (pe pd : Bool) :
    (s.running = true → DebouncedWatcher.start s pe pd = (.returnedWithoutStarting, s)) ∧
      (s.running = false → pe = false →
        DebouncedWatcher.start s pe pd = (.raisedFileNotFoundError, s) ∧
          ((DebouncedWatcher.start s pe pd).2).running = false) ∧
      (s.running = false → pe = true → pd = false →
        DebouncedWatcher.start s pe pd = (.raisedNotADirectoryError, s) ∧
          ((DebouncedWatcher.start s pe pd).2).running = false) := by
  refine ⟨fun h => ?_, fun h hpe => ?_, fun h hpe hpd => ?_⟩
  · simp [DebouncedWatcher.start, h]
  · simp [DebouncedWatcher.start, h, hpe]
  · simp [DebouncedWatcher.start, h, hpe, hpd]

/-- Witness for the amended C3 theorem: the three cases at concrete states. -/
theorem start_outcomes_witness :
    ({ stoppedState with running := true } : WatcherState).running = true ∧
      DebouncedWatcher.start { stoppedState with running := true } true true =
        (.returnedWithoutStarting, { stoppedState with running := true }) ∧
      DebouncedWatcher.start stoppedState false true =
        (.raisedFileNotFoundError, stoppedState) ∧
      DebouncedWatcher.start stoppedState true false =
        (.raisedNotADirectoryError, stoppedState) :=
  ⟨rfl,
    (start_outcomes { stoppedState with running := true } true true).1 rfl,
    ((start_outcomes stoppedState false true).2.1 rfl rfl).1,
    ((start_outcomes stoppedState true false).2.2 rfl rfl rfl).1⟩

/-- C4 counterexample: with `running` already false after `stop`, a periodic
timer fire that still completes invokes the sync callback anyway — `_do_sync`
runs before any check of the flag — and a debounce fire likewise. The claim
that every timer fire checks the running flag before invoking the callback
is therefore false. -/
theorem timer_fires_after_stop_still_sync :
    (DebouncedWatcher.trigger_periodic_sync stoppedState).2 = [.periodic] ∧
      (DebouncedWatcher.trigger_debounce_sync stoppedState).2 = [.debounce] := by
  constructor <;> rfl

/-- C4 (amended): once `stop()` has begun (`running` false), a timer fire
that still completes does not consult the running flag before invoking the
sync callback — debounce, max-latency and periodic fires each still invoke
it — but the periodic timer never reschedules itself once `running` is
false: its fire leaves the timer fields and the fresh-timer counter exactly
as they were. -/
theorem timer_fire_after_stop (s : WatcherState) (h : s.running = false) :
    (DebouncedWatcher.trigger_periodic_sync s).2 = [.periodic] ∧
      (DebouncedWatcher.trigger_debounce_sync s).2 = [.debounce] ∧
      (DebouncedWatcher.trigger_max_latency_sync s).2 = [.max_latency] ∧
      (DebouncedWatcher.trigger_periodic_sync s).1 = s := by
  refine ⟨?_, rfl, rfl, ?_⟩ <;>
    simp [DebouncedWatcher.trigger_periodic_sync, DebouncedWatcher.do_sync, h]

/-- Witness for the amended C4 theorem at a concrete stopped state. -/
theorem timer_fire_after_stop_witness :
    stoppedState.running = false ∧
      (DebouncedWatcher.trigger_periodic_sync stoppedState).2 = [.periodic] ∧
      (DebouncedWatcher.trigger_debounce_sync stoppedState).2 = [.debounce] ∧
      (DebouncedWatcher.trigger_max_latency_sync stoppedState).2 = [.max_latency] ∧
      (DebouncedWatcher.trigger_periodic_sync stoppedState).1 = stoppedState :=
  ⟨rfl, timer_fire_after_stop stoppedState rfl⟩

/-- C9: every periodic fire invokes the sync callback with reason `periodic`
and leaves the event accounting untouched: `event_count`,
`first_event_time`, `last_event_time` and the pending debounce and
max-latency timers are the same after the fire as before it (only the
periodic timer itself may be rearmed). -/
theorem periodic_fire_preserves_accounting (s : WatcherState) :
    (DebouncedWatcher.trigger_periodic_sync s).2 = [.periodic] ∧
      (DebouncedWatcher.trigger_periodic_sync s).1.event_count = s.event_count ∧
      (DebouncedWatcher.trigger_periodic_sync s).1.first_event_time = s.first_event_time ∧
      (DebouncedWatcher.trigger_periodic_sync s).1.last_event_time = s.last_event_time ∧
      (DebouncedWatcher.trigger_periodic_sync s).1.debounce_timer = s.debounce_timer ∧
      (DebouncedWatcher.trigger_periodic_sync s).1.max_latency_timer = s.max_latency_timer := by
  unfold DebouncedWatcher.trigger_periodic_sync DebouncedWatcher.do_sync
    DebouncedWatcher.schedule_periodic_sync
  by_cases hr : s.running
  · by_cases hq : s.sync_rate_seconds ≤ 0 <;> simp [hr, hq]
  · simp [hr]

/-- C10: `force_sync` never consults the running flag: for any state —
including a stopped one — it resets the accounting (event count zero, first
and last event times cleared, debounce and max-latency timers cancelled) and
invokes the external sync callback with reason `manual`. -/
theorem force_sync_ignores_running (s : WatcherState) (_h : s.running = false) :
    (DirSync.DebouncedWatcher.force_sync s).2 = [.manual] ∧
      (DebouncedWatcher.force_sync s).1.event_count = 0 ∧
      (DebouncedWatcher.force_sync s).1.first_event_time = none ∧
      (DebouncedWatcher.force_sync s).1.last_event_time = none ∧
      (DebouncedWatcher.force_sync s).1.debounce_timer = none ∧
      (DebouncedWatcher.force_sync s).1.max_latency_timer = none := by
  refine ⟨rfl, rfl, rfl, rfl, rfl, rfl⟩

/-- Witness for the C10 theorem at a concrete stopped state. -/
theorem force_sync_ignores_running_witness :
    stoppedState.running = false ∧
      (DebouncedWatcher.force_sync stoppedState).2 = [.manual] ∧
      (DebouncedWatcher.force_sync stoppedState).1.event_count = 0 :=
  ⟨rfl, (force_sync_ignores_running stoppedState rfl).1,
    (force_sync_ignores_running stoppedState rfl).2.1⟩

end DirSync
